import Mathlib

/-!
Shallow embedding of the mycelium HTTP admin API core (src/src/api.rs) and
proofs of the specified properties.  The collaborator types (`Endpoint`,
`PeerManager`, `crate::router::Router`) live elsewhere in the repository and
are modelled from the specification where the claims need them; everything
taken from src/src/api.rs keeps the source's names and structure.
-/

namespace Mycelium

/-! ## JSON value model

The serializer target.  `serialize_u16` emits a bare JSON number,
`serialize_str` a JSON string; rendering to text mirrors serde_json's output
for these two cases. -/

/-- A JSON value, restricted to the two shapes the `Metric` serializer can
produce: a bare number or a string. -/
inductive JsonValue where
  | num (n : Nat)
  | str (s : String)
deriving DecidableEq

/-- Render a `JsonValue` to its textual JSON form (serde_json output shape:
bare digits for numbers, double-quoted text for strings; "infinite" needs no
escaping). -/
def JsonValue.render : JsonValue → String
  | .num n => toString n
  | .str s => "\"" ++ s ++ "\""

/-! ## Metric (src/src/api.rs lines 146-151, 232-242) -/

/-- Alias to a Metric for serialization in the API (api.rs lines 146-151):
either a finite `u16` value or the `Infinite` sentinel.  The `u16` payload is
modelled as a `Nat` bounded by 65535 where the claims need the bound. -/
inductive Metric where
  | Value (v : Nat)
  | Infinite
deriving DecidableEq

/-- The `Serialize` impl for `Metric` (api.rs lines 232-242):
`Infinite` serializes via `serialize_str "infinite"`, `Value v` via
`serialize_u16 v`. -/
def Metric.serialize : Metric → JsonValue
  | .Infinite => .str "infinite"
  | .Value v => .num v

/-- Modelled from the spec: decoding the numeric JSON form back to a finite
metric value.  The repository has no `Deserialize` impl for `Metric`; the
spec (§8) requires that round-trip of the numeric form preserve `v`, so the
decoder is the standard JSON-number read of a `u16`: a bare number in
[0, 65535] decodes to that value, anything else fails. -/
def decodeFiniteMetric : JsonValue → Option Nat
  | .num n => if n ≤ 65535 then some n else none
  | .str _ => none

/-- Claim C1: serializing a finite metric `v` in [0, 65535] yields the bare
JSON number `v` (rendered as its digits), serializing `Infinite` yields
exactly the JSON string "infinite", and decoding the numeric form recovers
`v`. -/
theorem metric_serialize_roundtrip (v : Nat) (h : v ≤ 65535) :
    Metric.serialize (.Value v) = .num v ∧
    (Metric.serialize (.Value v)).render = toString v ∧
    Metric.serialize .Infinite = .str "infinite" ∧
    (Metric.serialize .Infinite).render = "\"infinite\"" ∧
    decodeFiniteMetric (Metric.serialize (.Value v)) = some v := by
  refine ⟨rfl, rfl, rfl, rfl, ?_⟩
  simp [Metric.serialize, decodeFiniteMetric, h]

/-- Witness for C1 at `v = 10` (the value used by the repository's own
`finite_metric_serialization` test). -/
theorem metric_serialize_roundtrip_witness :
    (10 : Nat) ≤ 65535 ∧
      (Metric.serialize (.Value 10) = .num 10 ∧
       (Metric.serialize (.Value 10)).render = toString (10 : Nat) ∧
       Metric.serialize .Infinite = .str "infinite" ∧
       (Metric.serialize .Infinite).render = "\"infinite\"" ∧
       decodeFiniteMetric (Metric.serialize (.Value 10)) = some 10) :=
  ⟨by decide, metric_serialize_roundtrip 10 (by decide)⟩

/-! ## Collaborators: Endpoint, PeerManager (crate::endpoint, crate::peer_manager)

These live in the repository outside src/; they are modelled from the spec. -/

/-- Modelled from the spec: an `Endpoint` (crate::endpoint::Endpoint, not
under src/) is a parsed, canonical peer address identifier; an opaque value
with stable equality for use as a lookup key (§3). -/
structure Endpoint where
  canonical : String
deriving DecidableEq

/-- Modelled from the spec: `Endpoint::from_str` (crate::endpoint, not under
src/) parses untrusted text into an `Endpoint` or fails with a descriptive
error (§4.1: reject malformed input, no side effects).  The concrete grammar
is not part of this core; following the spec's concrete scenario
("203.0.113.5:9651") an endpoint needs a nonempty host-and-port shape. -/
def Endpoint.from_str (s : String) : Except String Endpoint :=
  if s.isEmpty then
    .error "endpoint is empty"
  else if s.contains ':' then
    .ok ⟨s⟩
  else
    .error ("malformed endpoint: " ++ s)

/-- Error returned by `PeerManager::add_peer` when the peer is already
known (crate::peer_manager::PeerExists). -/
structure PeerExists
deriving DecidableEq

/-- Error returned by `PeerManager::delete_peer` when the peer is not
known (crate::peer_manager::PeerNotFound). -/
structure PeerNotFound
deriving DecidableEq

/-- Modelled from the spec: a read-only snapshot describing one known peer
(§3: connection identity plus counters; only the identity matters to the
claims). -/
structure PeerStats where
  connection_identity : Endpoint
deriving DecidableEq

/-- Modelled from the spec: the `PeerManager` collaborator
(crate::peer_manager, not under src/) tracks the set of known peers;
`add_peer` fails with `PeerExists` on a duplicate, `delete_peer` fails with
`PeerNotFound` on an absent peer (§6 collaborator boundary, §8 scenarios). -/
structure PeerManager where
  known : List Endpoint
deriving DecidableEq

/-- Modelled from the spec: `PeerManager::peers` returns a snapshot of the
stats of every known peer. -/
def PeerManager.peers (pm : PeerManager) : List PeerStats :=
  pm.known.map (fun e => ⟨e⟩)

/-- Modelled from the spec: `PeerManager::add_peer`; duplicate ⇒
`PeerExists`. -/
def PeerManager.add_peer (pm : PeerManager) (e : Endpoint) :
    Except PeerExists PeerManager :=
  if e ∈ pm.known then .error ⟨⟩ else .ok ⟨pm.known ++ [e]⟩

/-- Modelled from the spec: `PeerManager::delete_peer`; absent ⇒
`PeerNotFound`. -/
def PeerManager.delete_peer (pm : PeerManager) (e : Endpoint) :
    Except PeerNotFound PeerManager :=
  if e ∈ pm.known then .ok ⟨pm.known.erase e⟩ else .error ⟨⟩

/-! ## Collaborator: Router (crate::router::Router)

Also outside src/; modelled from the spec.  The route records expose exactly
the accessors the handlers in api.rs call: `source().subnet().to_string()`,
`neighbour().connection_identifier()`, `metric().is_infinite()`,
`metric().into::<u16>()`, `seqno().into::<u16>()`; the accessor chains are
flattened into fields holding the already-converted values. -/

/-- Modelled from the spec: an internal route record as consumed by the
route-listing handlers (§3 Route view sources). -/
structure RouteRecord where
  /-- `sr.source().subnet().to_string()` -/
  source_subnet_string : String
  /-- `sr.neighbour().connection_identifier()` -/
  neighbour_connection_identifier : String
  /-- `sr.metric().is_infinite()` -/
  metric_is_infinite : Bool
  /-- `u16::from(sr.metric())` -/
  metric_u16 : Nat
  /-- `u16::from(sr.seqno())` -/
  seqno_u16 : Nat
deriving DecidableEq

/-- Modelled from the spec: the `Router` collaborator (crate::router, not
under src/) exposes the node's overlay subnet and snapshots of the selected
and fallback route lists (§1, §6). -/
structure RouterState where
  selected : List RouteRecord
  fallback : List RouteRecord
  tun_subnet : String
deriving DecidableEq

/-- Modelled from the spec: `Router::load_selected_routes`. -/
def RouterState.load_selected_routes (r : RouterState) : List RouteRecord :=
  r.selected

/-- Modelled from the spec: `Router::load_fallback_routes`. -/
def RouterState.load_fallback_routes (r : RouterState) : List RouteRecord :=
  r.fallback

/-- Modelled from the spec: `Router::node_tun_subnet` rendered via
`to_string`. -/
def RouterState.node_tun_subnet (r : RouterState) : String :=
  r.tun_subnet

/-! ## HttpServerState and status codes (api.rs lines 36-46) -/

/-- Shared state accessible in HTTP endpoint handlers (api.rs lines 36-46).
The `Arc<Mutex<_>>` around the router is elided here; lock poisoning is
modelled separately for the handlers that unwrap the lock. -/
structure HttpServerState where
  router : RouterState
  peer_manager : PeerManager
deriving DecidableEq

/-- `axum::http::StatusCode` values used by api.rs, as their numeric
codes. -/
def StatusCode.NO_CONTENT : Nat := 204
def StatusCode.BAD_REQUEST : Nat := 400
def StatusCode.NOT_FOUND : Nat := 404
def StatusCode.CONFLICT : Nat := 409
def StatusCode.OK : Nat := 200

/-- Result type of the mutating handlers:
`Result<StatusCode, (StatusCode, String)>` from api.rs. -/
abbrev HandlerResult := Except (Nat × String) Nat

/-- The status code carried by a `HandlerResult`, success or error. -/
def HandlerResult.status : HandlerResult → Nat
  | .ok c => c
  | .error (c, _) => c

/-! ## add_peer / delete_peer (api.rs lines 98-143) -/

/-- Payload of an add_peer request (api.rs lines 99-103). -/
structure AddPeer where
  endpoint : String
deriving DecidableEq

/-- Add a new peer to the system (api.rs lines 106-123).  The handler
mutates shared state only through `PeerManager::add_peer`; the model
threads the updated state explicitly. -/
def add_peer (state : HttpServerState) (payload : AddPeer) :
    HttpServerState × HandlerResult :=
  match Endpoint.from_str payload.endpoint with
  | .error e => (state, .error (StatusCode.BAD_REQUEST, e))
  | .ok endpoint =>
    match state.peer_manager.add_peer endpoint with
    | .ok pm => ({ state with peer_manager := pm }, .ok StatusCode.NO_CONTENT)
    | .error _ =>
      (state,
        .error (StatusCode.CONFLICT,
          "A peer identified by that endpoint already exists"))

/-- Remove an existing peer from the system (api.rs lines 126-143). -/
def delete_peer (state : HttpServerState) (endpoint : String) :
    HttpServerState × HandlerResult :=
  match Endpoint.from_str endpoint with
  | .error e => (state, .error (StatusCode.BAD_REQUEST, e))
  | .ok endpoint =>
    match state.peer_manager.delete_peer endpoint with
    | .ok pm => ({ state with peer_manager := pm }, .ok StatusCode.NO_CONTENT)
    | .error _ =>
      (state,
        .error (StatusCode.NOT_FOUND,
          "A peer identified by that endpoint does not exist"))

/-- Claim C2: every add-peer request ends in exactly one of three outcomes:
400 with the parser's own error message when the endpoint fails to parse,
204 with no body (and the peer added) when `PeerManager::add_peer` succeeds,
or 409 with exactly "A peer identified by that endpoint already exists" when
the peer already exists.  The disjunction is exhaustive, so no other outcome
is possible. -/
theorem add_peer_outcomes (state : HttpServerState) (payload : AddPeer) :
    (∃ e, Endpoint.from_str payload.endpoint = .error e ∧
      add_peer state payload = (state, .error (StatusCode.BAD_REQUEST, e))) ∨
    (∃ ep pm, Endpoint.from_str payload.endpoint = .ok ep ∧
      state.peer_manager.add_peer ep = .ok pm ∧
      add_peer state payload =
        ({ state with peer_manager := pm }, .ok StatusCode.NO_CONTENT)) ∨
    (∃ ep, Endpoint.from_str payload.endpoint = .ok ep ∧
      state.peer_manager.add_peer ep = .error ⟨⟩ ∧
      add_peer state payload = (state,
        .error (StatusCode.CONFLICT,
          "A peer identified by that endpoint already exists"))) := by
  unfold add_peer
  rcases hp : Endpoint.from_str payload.endpoint with e | ep
  · exact Or.inl ⟨e, rfl, rfl⟩
  · rcases ha : state.peer_manager.add_peer ep with err | pm
    · exact Or.inr (Or.inr ⟨ep, rfl, by simp [ha], by simp [ha]⟩)
    · exact Or.inr (Or.inl ⟨ep, pm, rfl, ha, by simp [ha]⟩)

/-- Claim C3: every delete-peer request ends in exactly one of three
outcomes: 400 when the path parameter fails to parse as an `Endpoint`, 204
when `PeerManager::delete_peer` succeeds, or 404 with exactly "A peer
identified by that endpoint does not exist" when the peer is not present.
The disjunction is exhaustive, so no other outcome is possible. -/
theorem delete_peer_outcomes (state : HttpServerState) (endpoint : String) :
    (∃ e, Endpoint.from_str endpoint = .error e ∧
      delete_peer state endpoint =
        (state, .error (StatusCode.BAD_REQUEST, e))) ∨
    (∃ ep pm, Endpoint.from_str endpoint = .ok ep ∧
      state.peer_manager.delete_peer ep = .ok pm ∧
      delete_peer state endpoint =
        ({ state with peer_manager := pm }, .ok StatusCode.NO_CONTENT)) ∨
    (∃ ep, Endpoint.from_str endpoint = .ok ep ∧
      state.peer_manager.delete_peer ep = .error ⟨⟩ ∧
      delete_peer state endpoint = (state,
        .error (StatusCode.NOT_FOUND,
          "A peer identified by that endpoint does not exist"))) := by
  unfold delete_peer
  rcases hp : Endpoint.from_str endpoint with e | ep
  · exact Or.inl ⟨e, rfl, rfl⟩
  · rcases ha : state.peer_manager.delete_peer ep with err | pm
    · exact Or.inr (Or.inr ⟨ep, rfl, by simp [ha], by simp [ha]⟩)
    · exact Or.inr (Or.inl ⟨ep, pm, rfl, ha, by simp [ha]⟩)

/-- Claim C7: the add-peer and delete-peer handlers apply the same parse
function `Endpoint.from_str` to their input text, so for any input string
parsing fails in one handler exactly when it fails in the other (both answer
400 precisely then), and on malformed text both return the identical
400-plus-parser-message error. -/
theorem endpoint_validation_consistent (s : String)
    (st st' : HttpServerState) :
    ((add_peer st ⟨s⟩).2.status = StatusCode.BAD_REQUEST ↔
      (delete_peer st' s).2.status = StatusCode.BAD_REQUEST) ∧
    (∀ e, Endpoint.from_str s = .error e →
      (add_peer st ⟨s⟩).2 = .error (StatusCode.BAD_REQUEST, e) ∧
      (delete_peer st' s).2 = .error (StatusCode.BAD_REQUEST, e)) := by
  constructor
  · unfold add_peer delete_peer
    rcases hp : Endpoint.from_str s with e | ep
    · simp
    · rcases ha : st.peer_manager.add_peer ep with err | pm <;>
        rcases hd : st'.peer_manager.delete_peer ep with err' | pm' <;>
          simp [ha, hd, HandlerResult.status, StatusCode.BAD_REQUEST,
            StatusCode.NO_CONTENT, StatusCode.CONFLICT, StatusCode.NOT_FOUND]
  · intro e he
    unfold add_peer delete_peer
    simp [he]

/-- Witness for C7 at the malformed input "" (empty string fails
`Endpoint.from_str`) and empty server states. -/
theorem endpoint_validation_consistent_witness :
    (((add_peer ⟨⟨[], [], "sub"⟩, ⟨[]⟩⟩ ⟨""⟩).2.status =
        StatusCode.BAD_REQUEST ↔
      (delete_peer ⟨⟨[], [], "sub"⟩, ⟨[]⟩⟩ "").2.status =
        StatusCode.BAD_REQUEST) ∧
    ((add_peer ⟨⟨[], [], "sub"⟩, ⟨[]⟩⟩ ⟨""⟩).2 =
        .error (StatusCode.BAD_REQUEST, "endpoint is empty") ∧
      (delete_peer ⟨⟨[], [], "sub"⟩, ⟨[]⟩⟩ "").2 =
        .error (StatusCode.BAD_REQUEST, "endpoint is empty"))) := by
  obtain ⟨hIff, hErr⟩ :=
    endpoint_validation_consistent "" ⟨⟨[], [], "sub"⟩, ⟨[]⟩⟩
      ⟨⟨[], [], "sub"⟩, ⟨[]⟩⟩
  exact ⟨hIff, hErr "endpoint is empty" rfl⟩

/-! ## Route view and route-listing handlers (api.rs lines 153-215) -/

/-- Info about a route (api.rs lines 155-167): the serialization-facing
projection of an internal route record. -/
structure Route where
  subnet : String
  next_hop : String
  metric : Metric
  seqno : Nat
deriving DecidableEq

/-- List all currently selected routes (api.rs lines 170-191).  The handler
locks the router, loads the selected routes and maps each record to a
`Route` view; the per-record closure is transcribed verbatim. -/
def get_selected_routes (state : HttpServerState) : List Route :=
  state.router.load_selected_routes.map (fun sr =>
    { subnet := sr.source_subnet_string
      next_hop := sr.neighbour_connection_identifier
      metric :=
        if sr.metric_is_infinite then Metric.Infinite
        else Metric.Value sr.metric_u16
      seqno := sr.seqno_u16 })

/-- List all active fallback routes (api.rs lines 194-215); same shape as
`get_selected_routes` with the fallback accessor, per-record closure again
transcribed verbatim. -/
def get_fallback_routes (state : HttpServerState) : List Route :=
  state.router.load_fallback_routes.map (fun sr =>
    { subnet := sr.source_subnet_string
      next_hop := sr.neighbour_connection_identifier
      metric :=
        if sr.metric_is_infinite then Metric.Infinite
        else Metric.Value sr.metric_u16
      seqno := sr.seqno_u16 })

/-- The per-record mapping used by `get_selected_routes` (the closure at
api.rs lines 178-187), as a named function for comparison. -/
def selectedRouteMapping (sr : RouteRecord) : Route :=
  { subnet := sr.source_subnet_string
    next_hop := sr.neighbour_connection_identifier
    metric :=
      if sr.metric_is_infinite then Metric.Infinite
      else Metric.Value sr.metric_u16
    seqno := sr.seqno_u16 }

/-- The per-record mapping used by `get_fallback_routes` (the closure at
api.rs lines 202-211), as a named function for comparison. -/
def fallbackRouteMapping (sr : RouteRecord) : Route :=
  { subnet := sr.source_subnet_string
    next_hop := sr.neighbour_connection_identifier
    metric :=
      if sr.metric_is_infinite then Metric.Infinite
      else Metric.Value sr.metric_u16
    seqno := sr.seqno_u16 }

/-! ## Node info handler (api.rs lines 217-230) -/

/-- General info about a node (api.rs lines 218-223). -/
structure Info where
  node_subnet : String
deriving DecidableEq

/-- Get general info about the node (api.rs lines 226-230). -/
def get_info (state : HttpServerState) : Info :=
  { node_subnet := state.router.node_tun_subnet }

/-- Get the stats of the current known peers (api.rs lines 92-96). -/
def get_peers (state : HttpServerState) : List PeerStats :=
  state.peer_manager.peers

/-! ## Request dispatch (api.rs lines 62-67)

The admin route table, as a total step function from (state, request) to
(state, response).  Handlers returning `Json<T>` answer 200 with the JSON
body (axum's encoding of a plain `Json` return); the fallible handlers carry
their own status. -/

/-- A response body: empty (204), plain error text, or one of the JSON
payload shapes. -/
inductive ResponseBody where
  | empty
  | text (s : String)
  | peers (l : List PeerStats)
  | routes (l : List Route)
  | info (i : Info)
deriving DecidableEq

/-- An HTTP response: status code plus body. -/
structure Response where
  status : Nat
  body : ResponseBody
deriving DecidableEq

/-- An admin API request, one constructor per route registered at api.rs
lines 62-67. -/
inductive Request where
  | getInfo
  | getPeers
  | postPeers (payload : AddPeer)
  | deletePeerAt (endpoint : String)
  | getSelectedRoutes
  | getFallbackRoutes
deriving DecidableEq

/-- Dispatch one request to its handler (the route table at api.rs lines
62-67) and encode the handler result as an HTTP response. -/
def handle (state : HttpServerState) : Request → HttpServerState × Response
  | .getInfo => (state, ⟨StatusCode.OK, .info (get_info state)⟩)
  | .getPeers => (state, ⟨StatusCode.OK, .peers (get_peers state)⟩)
  | .postPeers payload =>
    let (state', r) := add_peer state payload
    (state',
      match r with
      | .ok c => ⟨c, .empty⟩
      | .error (c, m) => ⟨c, .text m⟩)
  | .deletePeerAt ep =>
    let (state', r) := delete_peer state ep
    (state',
      match r with
      | .ok c => ⟨c, .empty⟩
      | .error (c, m) => ⟨c, .text m⟩)
  | .getSelectedRoutes =>
    (state, ⟨StatusCode.OK, .routes (get_selected_routes state)⟩)
  | .getFallbackRoutes =>
    (state, ⟨StatusCode.OK, .routes (get_fallback_routes state)⟩)

/-- Claim C6: the selected-routes and fallback-routes handlers apply the
identical per-record mapping (same subnet string, same next hop, same Metric
encoding, same seqno) and differ only in which Router accessor supplies the
source list. -/
theorem route_handlers_same_mapping :
    selectedRouteMapping = fallbackRouteMapping ∧
    (∀ state : HttpServerState,
      get_selected_routes state =
        state.router.load_selected_routes.map selectedRouteMapping ∧
      get_fallback_routes state =
        state.router.load_fallback_routes.map fallbackRouteMapping) :=
  ⟨rfl, fun _ => ⟨rfl, rfl⟩⟩

/-- Claim C5: every `Route` view produced by either route-listing handler
originates from a record and carries exactly the `Metric` dictated by that
record — `Infinite` when the record's metric is infinite and the finite
`Value` of its `u16` form otherwise — and no finite value (0 and the worst
finite value included) equals the `Infinite` variant. -/
theorem route_metric_two_variants (state : HttpServerState) (r : Route)
    (h : r ∈ get_selected_routes state ∨ r ∈ get_fallback_routes state) :
    (∃ sr : RouteRecord,
      (sr ∈ state.router.load_selected_routes ∨
        sr ∈ state.router.load_fallback_routes) ∧
      (sr.metric_is_infinite = true → r.metric = Metric.Infinite) ∧
      (sr.metric_is_infinite = false →
        r.metric = Metric.Value sr.metric_u16)) ∧
    (∀ v : Nat, Metric.Value v ≠ Metric.Infinite) := by
  refine ⟨?_, fun v => by simp⟩
  rcases h with h | h
  · rcases List.mem_map.mp h with ⟨sr, hmem, hEq⟩
    refine ⟨sr, Or.inl hmem, ?_, ?_⟩ <;> intro hinf <;>
      simp [← hEq, hinf]
  · rcases List.mem_map.mp h with ⟨sr, hmem, hEq⟩
    refine ⟨sr, Or.inr hmem, ?_, ?_⟩ <;> intro hinf <;>
      simp [← hEq, hinf]

/-- Witness for C5: a two-route state (one finite metric 0, one infinite)
whose first selected view is a member of the handler output. -/
theorem route_metric_two_variants_witness :
    (⟨"400::/64", "tcp peer", Metric.Value 0, 7⟩ ∈
        get_selected_routes
          ⟨⟨[⟨"400::/64", "tcp peer", false, 0, 7⟩],
            [⟨"500::/64", "quic peer", true, 65535, 9⟩], "sub"⟩, ⟨[]⟩⟩ ∨
      (⟨"400::/64", "tcp peer", Metric.Value 0, 7⟩ : Route) ∈
        get_fallback_routes
          ⟨⟨[⟨"400::/64", "tcp peer", false, 0, 7⟩],
            [⟨"500::/64", "quic peer", true, 65535, 9⟩], "sub"⟩, ⟨[]⟩⟩) ∧
    ((∃ sr : RouteRecord,
      (sr ∈ RouterState.load_selected_routes
          ⟨[⟨"400::/64", "tcp peer", false, 0, 7⟩],
            [⟨"500::/64", "quic peer", true, 65535, 9⟩], "sub"⟩ ∨
        sr ∈ RouterState.load_fallback_routes
          ⟨[⟨"400::/64", "tcp peer", false, 0, 7⟩],
            [⟨"500::/64", "quic peer", true, 65535, 9⟩], "sub"⟩) ∧
      (sr.metric_is_infinite = true →
        (⟨"400::/64", "tcp peer", Metric.Value 0, 7⟩ : Route).metric =
          Metric.Infinite) ∧
      (sr.metric_is_infinite = false →
        (⟨"400::/64", "tcp peer", Metric.Value 0, 7⟩ : Route).metric =
          Metric.Value sr.metric_u16)) ∧
    (∀ v : Nat, Metric.Value v ≠ Metric.Infinite)) :=
  ⟨Or.inl (by decide),
    route_metric_two_variants
      ⟨⟨[⟨"400::/64", "tcp peer", false, 0, 7⟩],
        [⟨"500::/64", "quic peer", true, 65535, 9⟩], "sub"⟩, ⟨[]⟩⟩
      ⟨"400::/64", "tcp peer", Metric.Value 0, 7⟩ (Or.inl (by decide))⟩

/-- Claim C8: the read-only listing handlers always succeed: for every
state, GET peers, GET selected routes and GET fallback routes answer 200
with a sequence body and leave the state untouched, and empty collaborator
state yields an empty sequence rather than an error. -/
theorem listing_handlers_always_succeed (state : HttpServerState) :
    handle state .getPeers =
      (state, ⟨StatusCode.OK, .peers (get_peers state)⟩) ∧
    handle state .getSelectedRoutes =
      (state, ⟨StatusCode.OK, .routes (get_selected_routes state)⟩) ∧
    handle state .getFallbackRoutes =
      (state, ⟨StatusCode.OK, .routes (get_fallback_routes state)⟩) ∧
    (state.peer_manager.known = [] → get_peers state = []) ∧
    (state.router.selected = [] → get_selected_routes state = []) ∧
    (state.router.fallback = [] → get_fallback_routes state = []) := by
  refine ⟨rfl, rfl, rfl, ?_, ?_, ?_⟩ <;> intro h <;>
    simp [get_peers, get_selected_routes, get_fallback_routes,
      PeerManager.peers, RouterState.load_selected_routes,
      RouterState.load_fallback_routes, h]

/-- Witness for C8 at the empty server state. -/
theorem listing_handlers_always_succeed_witness :
    handle ⟨⟨[], [], "sub"⟩, ⟨[]⟩⟩ .getPeers =
      (⟨⟨[], [], "sub"⟩, ⟨[]⟩⟩,
        ⟨StatusCode.OK, .peers (get_peers ⟨⟨[], [], "sub"⟩, ⟨[]⟩⟩)⟩) ∧
    handle ⟨⟨[], [], "sub"⟩, ⟨[]⟩⟩ .getSelectedRoutes =
      (⟨⟨[], [], "sub"⟩, ⟨[]⟩⟩,
        ⟨StatusCode.OK,
          .routes (get_selected_routes ⟨⟨[], [], "sub"⟩, ⟨[]⟩⟩)⟩) ∧
    handle ⟨⟨[], [], "sub"⟩, ⟨[]⟩⟩ .getFallbackRoutes =
      (⟨⟨[], [], "sub"⟩, ⟨[]⟩⟩,
        ⟨StatusCode.OK,
          .routes (get_fallback_routes ⟨⟨[], [], "sub"⟩, ⟨[]⟩⟩)⟩) ∧
    get_peers ⟨⟨[], [], "sub"⟩, ⟨[]⟩⟩ = [] ∧
    get_selected_routes ⟨⟨[], [], "sub"⟩, ⟨[]⟩⟩ = [] ∧
    get_fallback_routes ⟨⟨[], [], "sub"⟩, ⟨[]⟩⟩ = [] := by
  obtain ⟨h1, h2, h3, h4, h5, h6⟩ :=
    listing_handlers_always_succeed ⟨⟨[], [], "sub"⟩, ⟨[]⟩⟩
  exact ⟨h1, h2, h3, h4 rfl, h5 rfl, h6 rfl⟩

/-! ## Server lifecycle (api.rs lines 28-34, 48-89)

`Http::spawn` wires the server future to a background task whose body is
`if let Err(e) = server.await { error!("Http API server error: {e}") }`, and
returns a handle holding only the oneshot cancel sender.  The async runtime
itself is opaque; the task body and the caller-visible result are embedded
as functions of the eventual server outcome. -/

/-- The oneshot cancellation sender held by the handle
(`tokio::sync::oneshot::Sender<()>`), opaque to this layer. -/
structure CancelSender
deriving DecidableEq

/-- Http API server handle (api.rs lines 30-34): its only field is the
cancel sender; it carries no error channel or status field. -/
structure Http where
  cancel_tx : CancelSender
deriving DecidableEq

/-- The body of the background task spawned at api.rs lines 83-87,
parametrized by the outcome of awaiting the server future (`.error` covers
a bind fault surfaced at serve time as well as a transport fault).  The
body's result is the list of log lines it emits: the error branch only
logs, it propagates nothing. -/
def serverTaskBody (outcome : Except String Unit) : List String :=
  match outcome with
  | .ok _ => []
  | .error e => ["Http API server error: " ++ e]

/-- `Http::spawn` (api.rs lines 50-89) as seen by the caller, paired with
the background task's eventual log output for a given server outcome. -/
def spawn (outcome : Except String Unit) : Http × List String :=
  ({ cancel_tx := ⟨⟩ }, serverTaskBody outcome)

/-- Claim C4: a server run failure is logged and never surfaces to the
caller: the handle `spawn` returns is identical whatever the server
outcome (so the caller receives no explicit error signal in any failure
case), the failing task terminates producing exactly the one error log
line, and a clean run logs nothing. -/
theorem spawn_failure_isolated (o o' : Except String Unit) :
    (spawn o).1 = (spawn o').1 ∧
    (∀ e, o = .error e →
      (spawn o).2 = ["Http API server error: " ++ e]) ∧
    (o = .ok () → (spawn o).2 = []) := by
  refine ⟨rfl, ?_, ?_⟩
  · intro e he
    simp [spawn, serverTaskBody, he]
  · intro he
    simp [spawn, serverTaskBody, he]

/-- Witness for C4 at a concrete bind fault and a clean run. -/
theorem spawn_failure_isolated_witness :
    (spawn (.error "address in use")).1 = (spawn (.ok ())).1 ∧
    (spawn (.error "address in use")).2 =
      ["Http API server error: " ++ "address in use"] ∧
    (spawn (.ok ())).2 = [] := by
  obtain ⟨h1, h2, -⟩ := spawn_failure_isolated (.error "address in use") (.ok ())
  obtain ⟨-, -, h3⟩ := spawn_failure_isolated (.ok ()) (.ok ())
  exact ⟨h1, h2 "address in use" rfl, h3 rfl⟩

/-! ## Handle-drop shutdown (api.rs lines 28-34, 76-81)

Modelled from the spec: the semantics of the tokio oneshot channel and of
axum's `with_graceful_shutdown` are outside this crate.  Dropping the
`Http` handle drops `_cancel_tx`, which resolves `cancel_rx`; the server
loop observes that and drains in-flight requests before stopping (§4.7,
§5).  This is a small transition system over lifecycle states. -/

/-- Phase of the background server loop. -/
inductive Phase where
  | running
  | draining
  | stopped
deriving DecidableEq

/-- Lifecycle state: whether the owning `Http` handle is still alive,
whether the oneshot cancellation has been signalled, and the server
phase. -/
structure LifecycleState where
  handleAlive : Bool
  cancelSignalled : Bool
  phase : Phase
deriving DecidableEq

/-- Initial lifecycle state right after `Http::spawn` returns: handle held,
no cancellation, server loop running. -/
def initLifecycle : LifecycleState :=
  { handleAlive := true, cancelSignalled := false, phase := .running }

/-- Modelled from the spec: lifecycle events.  Dropping the handle (only
possible while it is alive) signals the oneshot; the running loop that
observes the signal turns to draining (in-flight requests may still
complete); draining eventually stops.  No other event changes these
fields: in particular nothing signals cancellation except the drop. -/
inductive LifecycleStep : LifecycleState → LifecycleState → Prop where
  | dropHandle (s : LifecycleState) (h : s.handleAlive = true) :
      LifecycleStep s
        { handleAlive := false, cancelSignalled := true, phase := s.phase }
  | observeCancel (s : LifecycleState) (h : s.cancelSignalled = true)
      (hp : s.phase = .running) :
      LifecycleStep s { s with phase := .draining }
  | finishDrain (s : LifecycleState) (hp : s.phase = .draining) :
      LifecycleStep s { s with phase := .stopped }

/-- Lifecycle states reachable from the post-spawn state. -/
def LifecycleReachable (s : LifecycleState) : Prop :=
  Relation.ReflTransGen LifecycleStep initLifecycle s

/-- Claim C9: in every reachable lifecycle state the cancellation signal
has fired exactly when the handle has been destroyed (so the signal fires
at destruction and never before, and a destroyed handle cannot fire it
again), the server has left its running phase only after the signal, and
any step that stops the server comes from the draining phase, in which
in-flight requests may still complete. -/
theorem handle_drop_graceful_shutdown :
    (∀ s, LifecycleReachable s →
      (s.cancelSignalled = true ↔ s.handleAlive = false) ∧
      (s.phase ≠ Phase.running → s.cancelSignalled = true)) ∧
    (∀ s s', LifecycleStep s s' → s.handleAlive = false →
      s'.handleAlive = false ∧ s'.cancelSignalled = s.cancelSignalled) ∧
    (∀ s s', LifecycleStep s s' → s.phase ≠ Phase.stopped →
      s'.phase = Phase.stopped → s.phase = Phase.draining) := by
  refine ⟨?_, ?_, ?_⟩
  · intro s hs
    induction hs with
    | refl => simp [initLifecycle]
    | tail _ step ih =>
      cases step with
      | dropHandle h => simp
      | observeCancel h hp =>
        obtain ⟨ih1, _⟩ := ih
        exact ⟨ih1, fun _ => h⟩
      | finishDrain hp =>
        obtain ⟨ih1, ih2⟩ := ih
        exact ⟨ih1, fun _ => ih2 (by simp [hp])⟩
  · intro s s' step hdead
    cases step with
    | dropHandle h => simp [h] at hdead
    | observeCancel h hp => exact ⟨hdead, rfl⟩
    | finishDrain hp => exact ⟨hdead, rfl⟩
  · intro s s' step hne hstop
    cases step with
    | dropHandle h => exact absurd hstop hne
    | observeCancel h hp => simp at hstop
    | finishDrain hp => exact hp

/-- The drained lifecycle state used as the concrete input of the C9
witness: handle destroyed, cancellation signalled, server draining. -/
def drainedLifecycleState : LifecycleState :=
  { handleAlive := false, cancelSignalled := true, phase := Phase.draining }

/-- Witness for C9 along the concrete trace spawn → drop handle → observe
cancellation: the drained state is reachable and satisfies the
invariants. -/
theorem handle_drop_graceful_shutdown_witness :
    LifecycleReachable drainedLifecycleState ∧
    (drainedLifecycleState.cancelSignalled = true ↔
      drainedLifecycleState.handleAlive = false) ∧
    LifecycleStep drainedLifecycleState
      { handleAlive := false, cancelSignalled := true,
        phase := Phase.stopped } := by
  have hdrop : LifecycleStep initLifecycle
      { handleAlive := false, cancelSignalled := true,
        phase := Phase.running } :=
    LifecycleStep.dropHandle initLifecycle rfl
  have hobs : LifecycleStep
      { handleAlive := false, cancelSignalled := true,
        phase := Phase.running }
      { handleAlive := false, cancelSignalled := true,
        phase := Phase.draining } :=
    LifecycleStep.observeCancel _ rfl rfl
  have hreach : LifecycleReachable
      { handleAlive := false, cancelSignalled := true,
        phase := Phase.draining } :=
    Relation.ReflTransGen.tail (Relation.ReflTransGen.tail .refl hdrop) hobs
  obtain ⟨hinv, -, -⟩ := handle_drop_graceful_shutdown
  exact ⟨hreach, (hinv _ hreach).1, LifecycleStep.finishDrain _ rfl⟩

/-! ## Router lock unwrap (api.rs lines 172-175, 196-199, 228)

Modelled from `std::sync::Mutex` semantics: `lock()` yields the guarded
value, or a poison error if a previous holder panicked; `.unwrap()` on the
poison error panics the handler instead of producing any HTTP response. -/

/-- Modelled from the spec: locking the shared router mutex.  `poisoned`
records whether some lock holder has panicked before. -/
def lockRouter (poisoned : Bool) (r : RouterState) :
    Except String RouterState :=
  if poisoned then .error "poisoned lock" else .ok r

/-- Outcome of a handler whose body can panic: either a value to serialize
into a response, or a panic (no HTTP response at all). -/
inductive HandlerOutcome (α : Type) where
  | response (a : α)
  | panicked
deriving DecidableEq

/-- `get_info` with the `lock().unwrap()` made explicit (api.rs line
228). -/
def get_info_locked (poisoned : Bool) (state : HttpServerState) :
    HandlerOutcome Info :=
  match lockRouter poisoned state.router with
  | .ok r => .response { node_subnet := r.node_tun_subnet }
  | .error _ => .panicked

/-- `get_selected_routes` with the `lock().unwrap()` made explicit (api.rs
lines 172-175). -/
def get_selected_routes_locked (poisoned : Bool) (state : HttpServerState) :
    HandlerOutcome (List Route) :=
  match lockRouter poisoned state.router with
  | .ok r => .response (r.load_selected_routes.map (fun sr =>
      { subnet := sr.source_subnet_string
        next_hop := sr.neighbour_connection_identifier
        metric :=
          if sr.metric_is_infinite then Metric.Infinite
          else Metric.Value sr.metric_u16
        seqno := sr.seqno_u16 }))
  | .error _ => .panicked

/-- `get_fallback_routes` with the `lock().unwrap()` made explicit (api.rs
lines 196-199). -/
def get_fallback_routes_locked (poisoned : Bool) (state : HttpServerState) :
    HandlerOutcome (List Route) :=
  match lockRouter poisoned state.router with
  | .ok r => .response (r.load_fallback_routes.map (fun sr =>
      { subnet := sr.source_subnet_string
        next_hop := sr.neighbour_connection_identifier
        metric :=
          if sr.metric_is_infinite then Metric.Infinite
          else Metric.Value sr.metric_u16
        seqno := sr.seqno_u16 }))
  | .error _ => .panicked

/-- Claim C10: when the router lock is not poisoned, the unwrap in the
router-reading handlers cannot fail — each returns its normal response
(the same value as the unlocked handler); when the lock is poisoned, each
handler panics, which is never an HTTP response. -/
theorem router_lock_unwrap (poisoned : Bool) (state : HttpServerState) :
    (poisoned = false →
      get_info_locked poisoned state = .response (get_info state) ∧
      get_selected_routes_locked poisoned state =
        .response (get_selected_routes state) ∧
      get_fallback_routes_locked poisoned state =
        .response (get_fallback_routes state)) ∧
    (poisoned = true →
      get_info_locked poisoned state = .panicked ∧
      get_selected_routes_locked poisoned state = .panicked ∧
      get_fallback_routes_locked poisoned state = .panicked) ∧
    (∀ l : List Route,
      (HandlerOutcome.panicked : HandlerOutcome (List Route)) ≠
        .response l) := by
  refine ⟨?_, ?_, fun l => by simp⟩
  · intro h
    subst h
    refine ⟨?_, ?_, ?_⟩ <;>
      simp [get_info_locked, get_selected_routes_locked,
        get_fallback_routes_locked, lockRouter, get_info,
        get_selected_routes, get_fallback_routes]
  · intro h
    subst h
    refine ⟨?_, ?_, ?_⟩ <;>
      simp [get_info_locked, get_selected_routes_locked,
        get_fallback_routes_locked, lockRouter]

/-- Witness for C10 at a one-route state, in both lock conditions. -/
theorem router_lock_unwrap_witness :
    get_info_locked false
        ⟨⟨[⟨"400::/64", "tcp peer", false, 1, 2⟩], [], "sub"⟩, ⟨[]⟩⟩ =
      .response (get_info
        ⟨⟨[⟨"400::/64", "tcp peer", false, 1, 2⟩], [], "sub"⟩, ⟨[]⟩⟩) ∧
    get_selected_routes_locked false
        ⟨⟨[⟨"400::/64", "tcp peer", false, 1, 2⟩], [], "sub"⟩, ⟨[]⟩⟩ =
      .response (get_selected_routes
        ⟨⟨[⟨"400::/64", "tcp peer", false, 1, 2⟩], [], "sub"⟩, ⟨[]⟩⟩) ∧
    get_info_locked true
        ⟨⟨[⟨"400::/64", "tcp peer", false, 1, 2⟩], [], "sub"⟩, ⟨[]⟩⟩ =
      .panicked ∧
    get_fallback_routes_locked true
        ⟨⟨[⟨"400::/64", "tcp peer", false, 1, 2⟩], [], "sub"⟩, ⟨[]⟩⟩ =
      .panicked := by
  obtain ⟨hok, -, -⟩ := router_lock_unwrap false
    ⟨⟨[⟨"400::/64", "tcp peer", false, 1, 2⟩], [], "sub"⟩, ⟨[]⟩⟩
  obtain ⟨-, hbad, -⟩ := router_lock_unwrap true
    ⟨⟨[⟨"400::/64", "tcp peer", false, 1, 2⟩], [], "sub"⟩, ⟨[]⟩⟩
  obtain ⟨h1, h2, -⟩ := hok rfl
  obtain ⟨h3, -, h4⟩ := hbad rfl
  exact ⟨h1, h2, h3, h4⟩

end Mycelium
